import Mathlib

set_option maxHeartbeats 1000000
set_option maxRecDepth 100000

/-!
Verification development for the behavior arbitration engine of the robot
soccer control system (`crates/control/src/behavior/node.rs`).

The engine's per-cycle procedure `Behavior::cycle` is embedded shallowly:
the persistent `Behavior` state, the `active_since` and `previous_role`
transitions, the candidate-list builder, and the first-success arbitration
loop are translated directly from the source.  The individual action
executors, the strategy services and the dribble-path planner are external
modules (out of scope for the engine, absent from the sources); they are
abstracted as an environment `Env` of functions receiving exactly the data
the source passes to them.  Machine timestamps (`SystemTime`) are modelled
as natural numbers; `SystemTime::duration_since` fails exactly when the
argument is later than the receiver, mirrored by `durationSince` below.
-/

namespace Hulk

/-- Modelled from the spec: the external `MotionCommand` result type
(`types::motion_command`), opaque to the core beyond presence or absence;
only the `Unstiff` variant is distinguished because `Behavior::new`
initializes `last_motion_command` with it.  All other commands are
abstracted by a tag. -/
inductive MotionCommand where
  | Unstiff : MotionCommand
  | Command : Nat → MotionCommand
deriving DecidableEq

/-- Modelled from the spec: a 2-D point in field coordinates (external
`linear_algebra` type).  The engine only stores and copies these values, so
the coordinates are abstracted to integers. -/
structure Point2 where
  x : Int
  y : Int
deriving DecidableEq

/-- Modelled from the spec: the external path-obstacle telemetry value,
abstracted to a tag; the engine only moves these around. -/
structure PathObstacle where
  tag : Nat
deriving DecidableEq

/-- Modelled from the spec: the external planned-path segment, abstracted
to a tag; the engine only moves these around. -/
structure PathSegment where
  tag : Nat
deriving DecidableEq

/-- Modelled from the spec: the per-robot game-lifecycle phase
(`types::primary_state::PrimaryState`).  The engine's matches ignore the
payloads of `Ready` and `Playing` (matched with `..` in the source), so the
variants are modelled payload-free. -/
inductive PrimaryState where
  | Unstiff : PrimaryState
  | Initial : PrimaryState
  | Ready : PrimaryState
  | Set : PrimaryState
  | Playing : PrimaryState
  | Penalized : PrimaryState
  | Finished : PrimaryState
  | Calibration : PrimaryState
deriving DecidableEq, Fintype

/-- Modelled from the spec: the tactical role assignment
(`types::roles::Role`).  The variants are exactly the ten cases of the
exhaustive role match in `Behavior::cycle`. -/
inductive Role where
  | DefenderLeft : Role
  | DefenderRight : Role
  | Keeper : Role
  | Loser : Role
  | MidfielderLeft : Role
  | MidfielderRight : Role
  | ReplacementKeeper : Role
  | Searcher : Role
  | Striker : Role
  | StrikerSupporter : Role
deriving DecidableEq, Fintype

/-- Modelled from the spec: the team selector of the game-controller
messages (`spl_network_messages::Team`). -/
inductive Team where
  | Hulks : Team
  | Opponent : Team
  | Uncertain : Team
deriving DecidableEq, Fintype

/-- Modelled from the spec: the whole-game phase
(`spl_network_messages::GamePhase`); the engine matches
`PenaltyShootout { .. }` ignoring its payload, so variants are modelled
payload-free. -/
inductive GamePhase where
  | Normal : GamePhase
  | PenaltyShootout : GamePhase
  | Overtime : GamePhase
  | Timeout : GamePhase
deriving DecidableEq, Fintype

/-- Modelled from the spec: the game sub-state
(`spl_network_messages::SubState`); only `PenaltyKick` is inspected by the
engine. -/
inductive SubState where
  | GoalKick : SubState
  | PushingFreeKick : SubState
  | CornerKick : SubState
  | KickIn : SubState
  | PenaltyKick : SubState
deriving DecidableEq, Fintype

/-- Modelled from the spec: the locally filtered game state
(`types::filtered_game_state::FilteredGameState`); `Ready` carries the
kicking team and `Playing` carries the ball-is-free flag, the two payloads
the engine inspects. -/
inductive FilteredGameState where
  | Initial : FilteredGameState
  | Ready : Team → FilteredGameState
  | Set : FilteredGameState
  | Playing : Bool → FilteredGameState
  | Finished : FilteredGameState
deriving DecidableEq, Fintype

/-- Modelled from the spec: the filtered game-controller state
(`types::filtered_game_controller_state::FilteredGameControllerState`),
restricted to the four fields the engine reads. -/
structure FilteredGameControllerState where
  game_phase : GamePhase
  game_state : FilteredGameState
  kicking_team : Team
  sub_state : Option SubState
deriving DecidableEq, Fintype

/-- Modelled from the spec: the ball observation carried by the world
state, restricted to the `ball_in_field` position the engine reads. -/
structure BallState where
  ball_in_field : Point2
deriving DecidableEq

/-- Modelled from the spec: an obstacle perceived in the world, opaque to
the engine (consumed only by the external path planner). -/
structure Obstacle where
  tag : Nat
deriving DecidableEq

/-- Modelled from the spec: the robot-specific part of the world state,
restricted to the two fields the engine reads. -/
structure RobotState where
  primary_state : PrimaryState
  role : Role
deriving DecidableEq

/-- Modelled from the spec: the per-cycle world-state snapshot
(`types::world_state::WorldState`), restricted to the fields the engine
reads. -/
structure WorldState where
  ball : Option BallState
  robot : RobotState
  filtered_game_controller_state : Option FilteredGameControllerState
  obstacles : List Obstacle
deriving DecidableEq

/-- The closed action catalog (`types::action::Action`): exactly the 27
variants dispatched by the exhaustive match of the arbitration loop. -/
inductive Action where
  | Unstiff : Action
  | Animation : Action
  | SitDown : Action
  | Penalize : Action
  | Initial : Action
  | FallSafely : Action
  | StandUp : Action
  | NoGroundContact : Action
  | Stand : Action
  | InterceptBall : Action
  | Calibrate : Action
  | LookAround : Action
  | DefendGoal : Action
  | DefendKickOff : Action
  | DefendLeft : Action
  | DefendRight : Action
  | DefendPenaltyKick : Action
  | Dribble : Action
  | Jump : Action
  | PrepareJump : Action
  | Search : Action
  | SearchForLostBall : Action
  | SupportLeft : Action
  | SupportRight : Action
  | SupportStriker : Action
  | WalkToKickOff : Action
  | WalkToPenaltyKick : Action
deriving DecidableEq, Fintype

/-- The persistent engine state (struct `Behavior` in the source): the last
committed command, the remembered ball position, the optional activation
timestamp, and the debounced previous role. -/
structure Behavior where
  last_motion_command : MotionCommand
  last_known_ball_position : Point2
  active_since : Option Nat
  previous_role : Role
deriving DecidableEq

/-- `Behavior::new`: the initial persistent state. -/
def Behavior.new : Behavior where
  last_motion_command := MotionCommand.Unstiff
  last_known_ball_position := { x := 0, y := 0 }
  active_since := none
  previous_role := Role.Searcher

/-- The behavior parameters read by the engine itself: the debug-injected
command override and the maximum look-around duration.  The remaining
tuning bundles (path planning, walk-and-stand, dribbling, search, ...) are
consumed only by the external executors and are absorbed into `Env`. -/
structure BehaviorParameters where
  injected_motion_command : Option MotionCommand
  maximum_lookaround_duration : Nat
deriving DecidableEq

/-- The cycle timing input; `start_time` models
`context.cycle_time.start_time`. -/
structure CycleTime where
  start_time : Nat
deriving DecidableEq

/-- The per-cycle context: the inputs and parameters of `CycleContext`
together with the subscription flags of the three `AdditionalOutput`
channels. -/
structure CycleContext where
  path_obstacles_subscribed : Bool
  dribble_path_obstacles_subscribed : Bool
  active_action_subscribed : Bool
  expected_referee_position : Option Point2
  has_ground_contact : Bool
  world_state : WorldState
  cycle_time : CycleTime
  is_localization_converged : Bool
  parameters : BehaviorParameters

/-- The cycle outputs: the two `MainOutputs` plus the three
`AdditionalOutput` channels (`none` models a channel left unfilled by the
cycle function itself; writes performed inside external executors through
the mutable `path_obstacles_output` reference are effects of out-of-scope
modules and are not modelled). -/
structure MainOutputs where
  motion_command : MotionCommand
  dribble_path : Option (List PathSegment)
  path_obstacles_output : Option (List PathObstacle)
  dribble_path_obstacles_output : Option (List PathObstacle)
  active_action_output : Option Action
deriving DecidableEq

/-- The outcome of one cycle: a normal return, the propagated
`SystemTimeError` of `now.duration_since(active_since)?` (carrying how far
the clock ran backwards), or the `panic!` of the arbitration fallback
(carrying the static message and the world state formatted into the
diagnostic). -/
inductive CycleResult where
  | ok : MainOutputs → CycleResult
  | fatalError : Nat → CycleResult
  | panicked : String → WorldState → CycleResult

/-- Modelled from the spec: the external action executors, strategy
services and the dribble-path planner, out of scope for the engine and
absent from the sources.  Each field is one executor invocation of the
arbitration match, as a function of exactly the data the source passes to
it: the world state, plus (where the source passes them) the previous
motion command that seeds the strategy services, the remembered ball
position, the debounced previous role, the referee-position hint, the
ground-contact flag and the precomputed dribble path.  Fixed tuning
parameters are absorbed into the functions. -/
structure Env where
  unstiff_execute : WorldState → Option MotionCommand
  animation_execute : WorldState → Option MotionCommand
  sit_down_execute : WorldState → Option MotionCommand
  penalize_execute : WorldState → Option MotionCommand
  initial_execute : WorldState → Option Point2 → Option MotionCommand
  fall_safely_execute : WorldState → Bool → Option MotionCommand
  stand_up_execute : WorldState → Option MotionCommand
  no_ground_contact_execute : WorldState → Option MotionCommand
  look_around_execute : WorldState → Option MotionCommand
  intercept_ball_execute : WorldState → Option MotionCommand
  calibrate_execute : WorldState → Option MotionCommand
  defend_goal : WorldState → MotionCommand → Option MotionCommand
  defend_kick_off : WorldState → MotionCommand → Option MotionCommand
  defend_left : WorldState → MotionCommand → Option MotionCommand
  defend_right : WorldState → MotionCommand → Option MotionCommand
  defend_penalty_kick : WorldState → MotionCommand → Option MotionCommand
  stand_execute : WorldState → Option MotionCommand
  dribble_execute : WorldState → MotionCommand → Option (List PathSegment) → Option MotionCommand
  jump_execute : WorldState → Option MotionCommand
  prepare_jump_execute : WorldState → Option MotionCommand
  search_execute : WorldState → MotionCommand → Role → Option MotionCommand
  lost_ball_execute : WorldState → Point2 → MotionCommand → Option MotionCommand
  support_left : WorldState → MotionCommand → Option MotionCommand
  support_right : WorldState → MotionCommand → Option MotionCommand
  support_striker : WorldState → MotionCommand → Option MotionCommand
  walk_to_kick_off_execute : WorldState → MotionCommand → Option MotionCommand
  walk_to_penalty_kick_execute : WorldState → MotionCommand → Option MotionCommand
  dribble_path_plan : WorldState → MotionCommand → Option (List PathSegment)
  dribble_path_plan_obstacles : WorldState → MotionCommand → Option (List PathObstacle)

/-- `SystemTime::duration_since`: the elapsed time from `earlier` to
`now`, failing (with the backwards distance) when `now` is earlier. -/
def durationSince (now earlier : Nat) : Except Nat Nat :=
  if earlier ≤ now then Except.ok (now - earlier) else Except.error (earlier - now)

/-- The `active_since` update of `Behavior::cycle` (the four-armed match on
`(self.active_since, world_state.robot.primary_state)`). -/
def activeSinceTransition (active_since : Option Nat) (primary_state : PrimaryState)
    (now : Nat) : Option Nat :=
  match active_since, primary_state with
  | none, PrimaryState.Ready | none, PrimaryState.Set | none, PrimaryState.Playing => some now
  | none, _ => none
  | some t, PrimaryState.Ready | some t, PrimaryState.Set | some t, PrimaryState.Playing => some t
  | some _, _ => none

/-- The `previous_role` update of `Behavior::cycle`: adopt the current role
exactly when it differs, is neither `Searcher` nor `Loser`, and the stored
role is not `Keeper`. -/
def previousRoleTransition (previous_role role : Role) : Role :=
  if previous_role ≠ role ∧ role ≠ Role.Searcher ∧ role ≠ Role.Loser
      ∧ previous_role ≠ Role.Keeper then
    role
  else
    previous_role

/-- The fixed safety/system prefix of the candidate list (the initial
`vec!` of `Behavior::cycle`). -/
def safetyActions : List Action :=
  [Action.Unstiff, Action.Animation, Action.SitDown, Action.Penalize, Action.Initial,
   Action.FallSafely, Action.StandUp, Action.NoGroundContact, Action.Stand,
   Action.InterceptBall, Action.Calibrate]

/-- The role-driven branch of the candidate-list builder (the match on
`world_state.robot.role`), as a function of the two world-state fields the
branch reads.  Anonymous-constructor patterns follow the field order
`(game_phase, game_state, kicking_team, sub_state)` of
`FilteredGameControllerState`. -/
def roleActions (role : Role)
    (filtered_game_controller_state : Option FilteredGameControllerState) : List Action :=
  let filtered_game_state :=
    filtered_game_controller_state.map (fun s => s.game_state)
  match role with
  | Role.DefenderLeft => [Action.DefendLeft]
  | Role.DefenderRight => [Action.DefendRight]
  | Role.Keeper =>
      match filtered_game_controller_state with
      | some ⟨GamePhase.PenaltyShootout, _, _, _⟩ => [Action.Jump, Action.PrepareJump]
      | some ⟨_, FilteredGameState.Playing _, Team.Opponent, some SubState.PenaltyKick⟩ =>
          [Action.Jump, Action.PrepareJump]
      | _ => [Action.DefendGoal]
  | Role.Loser => [Action.SearchForLostBall]
  | Role.MidfielderLeft => [Action.SupportLeft]
  | Role.MidfielderRight => [Action.SupportRight]
  | Role.ReplacementKeeper => [Action.DefendGoal]
  | Role.Searcher => [Action.Search]
  | Role.Striker =>
      match filtered_game_state with
      | none | some (FilteredGameState.Playing true) => [Action.Dribble]
      | some (FilteredGameState.Ready Team.Hulks) =>
          match filtered_game_controller_state with
          | some ⟨_, _, _, some SubState.PenaltyKick⟩ => [Action.WalkToPenaltyKick]
          | _ => [Action.WalkToKickOff]
      | _ =>
          match filtered_game_controller_state with
          | some ⟨_, FilteredGameState.Ready _, Team.Opponent, some SubState.PenaltyKick⟩ =>
              [Action.DefendPenaltyKick]
          | _ => [Action.DefendKickOff]
  | Role.StrikerSupporter => [Action.SupportStriker]

/-- The candidate-list builder of `Behavior::cycle`: the fixed prefix, the
time-boxed `LookAround` insertion (whose `duration_since` call can fail on
a backwards clock, propagated by `?`), and the role-driven branch. -/
def buildActions (active_since : Option Nat) (now : Nat)
    (is_localization_converged : Bool) (maximum_lookaround_duration : Nat)
    (role : Role)
    (filtered_game_controller_state : Option FilteredGameControllerState) :
    Except Nat (List Action) :=
  match active_since with
  | some t =>
      match durationSince now t with
      | Except.error backwards => Except.error backwards
      | Except.ok duration_active =>
          Except.ok
            (safetyActions
              ++ (if is_localization_converged = false
                      ∧ duration_active < maximum_lookaround_duration then
                    [Action.LookAround]
                  else [])
              ++ roleActions role filtered_game_controller_state)
  | none =>
      Except.ok (safetyActions ++ roleActions role filtered_game_controller_state)

/-- The executor dispatch of the arbitration loop: the exhaustive match on
the candidate action, routing each action to its bound external executor
with exactly the data the source passes. -/
def execFor (env : Env) (ctx : CycleContext) (b : Behavior)
    (dribble_path : Option (List PathSegment)) : Action → Option MotionCommand
  | Action.Animation => env.animation_execute ctx.world_state
  | Action.Unstiff => env.unstiff_execute ctx.world_state
  | Action.SitDown => env.sit_down_execute ctx.world_state
  | Action.Penalize => env.penalize_execute ctx.world_state
  | Action.Initial => env.initial_execute ctx.world_state ctx.expected_referee_position
  | Action.FallSafely => env.fall_safely_execute ctx.world_state ctx.has_ground_contact
  | Action.StandUp => env.stand_up_execute ctx.world_state
  | Action.NoGroundContact => env.no_ground_contact_execute ctx.world_state
  | Action.LookAround => env.look_around_execute ctx.world_state
  | Action.InterceptBall => env.intercept_ball_execute ctx.world_state
  | Action.Calibrate => env.calibrate_execute ctx.world_state
  | Action.DefendGoal => env.defend_goal ctx.world_state b.last_motion_command
  | Action.DefendKickOff => env.defend_kick_off ctx.world_state b.last_motion_command
  | Action.DefendLeft => env.defend_left ctx.world_state b.last_motion_command
  | Action.DefendRight => env.defend_right ctx.world_state b.last_motion_command
  | Action.DefendPenaltyKick => env.defend_penalty_kick ctx.world_state b.last_motion_command
  | Action.Stand => env.stand_execute ctx.world_state
  | Action.Dribble => env.dribble_execute ctx.world_state b.last_motion_command dribble_path
  | Action.Jump => env.jump_execute ctx.world_state
  | Action.PrepareJump => env.prepare_jump_execute ctx.world_state
  | Action.Search => env.search_execute ctx.world_state b.last_motion_command b.previous_role
  | Action.SearchForLostBall =>
      env.lost_ball_execute ctx.world_state b.last_known_ball_position b.last_motion_command
  | Action.SupportLeft => env.support_left ctx.world_state b.last_motion_command
  | Action.SupportRight => env.support_right ctx.world_state b.last_motion_command
  | Action.SupportStriker => env.support_striker ctx.world_state b.last_motion_command
  | Action.WalkToKickOff => env.walk_to_kick_off_execute ctx.world_state b.last_motion_command
  | Action.WalkToPenaltyKick =>
      env.walk_to_penalty_kick_execute ctx.world_state b.last_motion_command

/-- The `Iterator::find_map` arbitration loop: walk the candidate list in
order, invoking each executor until the first returns a command.  The
second component is the list of actions whose executors were invoked,
recording the short-circuit behavior of `find_map`. -/
def arbitrateAux (exec : Action → Option MotionCommand) :
    List Action → Option (Action × MotionCommand) × List Action
  | [] => (none, [])
  | action :: rest =>
      match exec action with
      | some motion_command => (some (action, motion_command), [action])
      | none =>
          let r := arbitrateAux exec rest
          (r.1, action :: r.2)

/-- The static part of the arbitration fallback panic message (the source
additionally formats the world state into the diagnostic; the embedding
carries the world state as a separate `CycleResult.panicked` field). -/
def panicMessage : String :=
  "there has to be at least one action available"

/-- The persistent-state updates of `Behavior::cycle` that precede
candidate-list building: ball memory, the `active_since` table and the
`previous_role` debounce, in source order. -/
def preArbitration (b : Behavior) (ctx : CycleContext) : Behavior :=
  let b :=
    match ctx.world_state.ball with
    | some ball_state => { b with last_known_ball_position := ball_state.ball_in_field }
    | none => b
  let b :=
    { b with
        active_since :=
          activeSinceTransition b.active_since ctx.world_state.robot.primary_state
            ctx.cycle_time.start_time }
  { b with
      previous_role := previousRoleTransition b.previous_role ctx.world_state.robot.role }

/-- `Behavior::cycle`: the per-tick arbitration procedure.  Returns the
persistent state as mutated up to the point the cycle ended (mirroring the
`&mut self` receiver) together with the cycle outcome. -/
def Behavior.cycle (env : Env) (b : Behavior) (ctx : CycleContext) :
    Behavior × CycleResult :=
  let world_state := ctx.world_state
  match ctx.parameters.injected_motion_command with
  | some command =>
      (b, CycleResult.ok
        { motion_command := command
          dribble_path := none
          path_obstacles_output := none
          dribble_path_obstacles_output := none
          active_action_output := none })
  | none =>
      let b := preArbitration b ctx
      match buildActions b.active_since ctx.cycle_time.start_time
          ctx.is_localization_converged ctx.parameters.maximum_lookaround_duration
          world_state.robot.role world_state.filtered_game_controller_state with
      | Except.error backwards => (b, CycleResult.fatalError backwards)
      | Except.ok actions =>
          let dribble_path := env.dribble_path_plan world_state b.last_motion_command
          let dribble_path_obstacles : Option (List PathObstacle) :=
            if ctx.path_obstacles_subscribed || ctx.dribble_path_obstacles_subscribed then
              env.dribble_path_plan_obstacles world_state b.last_motion_command
            else none
          match (arbitrateAux (execFor env ctx b dribble_path) actions).1 with
          | none => (b, CycleResult.panicked panicMessage world_state)
          | some (action, motion_command) =>
              ({ b with last_motion_command := motion_command },
                CycleResult.ok
                  { motion_command := motion_command
                    dribble_path := dribble_path
                    path_obstacles_output :=
                      if action = Action.Dribble ∧ ctx.path_obstacles_subscribed then
                        some (dribble_path_obstacles.getD [])
                      else none
                    dribble_path_obstacles_output :=
                      if ctx.dribble_path_obstacles_subscribed then
                        some (dribble_path_obstacles.getD [])
                      else none
                    active_action_output :=
                      if ctx.active_action_subscribed then some action else none })

/-! Concrete environments and contexts used to exercise the model. -/

/-- An environment in which every external executor declines and the
planner returns nothing. -/
def envNone : Env where
  unstiff_execute := fun _ => none
  animation_execute := fun _ => none
  sit_down_execute := fun _ => none
  penalize_execute := fun _ => none
  initial_execute := fun _ _ => none
  fall_safely_execute := fun _ _ => none
  stand_up_execute := fun _ => none
  no_ground_contact_execute := fun _ => none
  look_around_execute := fun _ => none
  intercept_ball_execute := fun _ => none
  calibrate_execute := fun _ => none
  defend_goal := fun _ _ => none
  defend_kick_off := fun _ _ => none
  defend_left := fun _ _ => none
  defend_right := fun _ _ => none
  defend_penalty_kick := fun _ _ => none
  stand_execute := fun _ => none
  dribble_execute := fun _ _ _ => none
  jump_execute := fun _ => none
  prepare_jump_execute := fun _ => none
  search_execute := fun _ _ _ => none
  lost_ball_execute := fun _ _ _ => none
  support_left := fun _ _ => none
  support_right := fun _ _ => none
  support_striker := fun _ _ => none
  walk_to_kick_off_execute := fun _ _ => none
  walk_to_penalty_kick_execute := fun _ _ => none
  dribble_path_plan := fun _ _ => none
  dribble_path_plan_obstacles := fun _ _ => none

/-- An environment in which only the Unstiff executor yields a command. -/
def envUnstiff : Env :=
  { envNone with unstiff_execute := fun _ => some (MotionCommand.Command 1) }

/-- A minimal world state: no ball, Initial primary state, Searcher role,
no game-controller state. -/
def wsBase : WorldState where
  ball := none
  robot := { primary_state := PrimaryState.Initial, role := Role.Searcher }
  filtered_game_controller_state := none
  obstacles := []

/-- A minimal cycle context over `wsBase` with no injected command and no
subscriptions. -/
def ctxBase : CycleContext where
  path_obstacles_subscribed := false
  dribble_path_obstacles_subscribed := false
  active_action_subscribed := false
  expected_referee_position := none
  has_ground_contact := true
  world_state := wsBase
  cycle_time := { start_time := 0 }
  is_localization_converged := true
  parameters := { injected_motion_command := none, maximum_lookaround_duration := 0 }

/-! Projection lemmas for the pre-arbitration state updates. -/

/-- The updates preceding arbitration never touch the last committed
command. -/
theorem preArbitration_last_motion_command (b : Behavior) (ctx : CycleContext) :
    (preArbitration b ctx).last_motion_command = b.last_motion_command := by
  cases hb : ctx.world_state.ball <;> simp [preArbitration, hb]

/-- The `active_since` field after the pre-arbitration updates is exactly
the transition-table value. -/
theorem preArbitration_active_since (b : Behavior) (ctx : CycleContext) :
    (preArbitration b ctx).active_since =
      activeSinceTransition b.active_since ctx.world_state.robot.primary_state
        ctx.cycle_time.start_time := by
  cases hb : ctx.world_state.ball <;> simp [preArbitration, hb]

/-- The `previous_role` field after the pre-arbitration updates is exactly
the debounce-transition value. -/
theorem preArbitration_previous_role (b : Behavior) (ctx : CycleContext) :
    (preArbitration b ctx).previous_role =
      previousRoleTransition b.previous_role ctx.world_state.robot.role := by
  cases hb : ctx.world_state.ball <;> simp [preArbitration, hb]

/-- In a cycle without an injected command, the committed state carries the
pre-arbitration values of `active_since`, `previous_role` and
`last_known_ball_position` (arbitration only rewrites
`last_motion_command`). -/
theorem cycle_fst_fields (env : Env) (b : Behavior) (ctx : CycleContext)
    (h : ctx.parameters.injected_motion_command = none) :
    (Behavior.cycle env b ctx).1.active_since = (preArbitration b ctx).active_since
    ∧ (Behavior.cycle env b ctx).1.previous_role = (preArbitration b ctx).previous_role
    ∧ (Behavior.cycle env b ctx).1.last_known_ball_position
        = (preArbitration b ctx).last_known_ball_position := by
  unfold Behavior.cycle
  rw [h]
  dsimp only
  split
  · exact ⟨rfl, rfl, rfl⟩
  · split
    · exact ⟨rfl, rfl, rfl⟩
    · exact ⟨rfl, rfl, rfl⟩

/-! Claim C3: the injected-command escape hatch. -/

/-- Claim C3: when the debug parameter injects a motion command, the cycle
emits exactly that command, the dribble-path output is `none`, no side
output is filled, all four persistent fields are unchanged, and the result
does not depend on any executor or planner (none is invoked and no
candidate list is consulted, since the result is the same for every
environment). -/
theorem injected_command_bypasses_arbitration (env : Env) (b : Behavior)
    (ctx : CycleContext) (command : MotionCommand)
    (h : ctx.parameters.injected_motion_command = some command) :
    Behavior.cycle env b ctx =
      (b, CycleResult.ok
        { motion_command := command
          dribble_path := none
          path_obstacles_output := none
          dribble_path_obstacles_output := none
          active_action_output := none }) := by
  simp only [Behavior.cycle, h]

/-- A context carrying an injected motion command over the minimal world
state. -/
def ctxInjected : CycleContext :=
  { ctxBase with
      parameters := { injected_motion_command := some (MotionCommand.Command 5),
                      maximum_lookaround_duration := 0 } }

/-- Witness for C3: a concrete injected cycle emits the injected command
and changes nothing. -/
theorem injected_command_bypasses_arbitration_witness :
    Behavior.cycle envNone Behavior.new ctxInjected =
      (Behavior.new, CycleResult.ok
        { motion_command := MotionCommand.Command 5
          dribble_path := none
          path_obstacles_output := none
          dribble_path_obstacles_output := none
          active_action_output := none }) :=
  injected_command_bypasses_arbitration envNone Behavior.new ctxInjected
    (MotionCommand.Command 5) rfl

/-! Claim C4: the `active_since` transition table. -/

/-- The pure 4-cell table satisfied by `activeSinceTransition`. -/
theorem activeSinceTransition_table (asv : Option Nat) (ps : PrimaryState) (now : Nat) :
    ((asv = none
        ∧ (ps = PrimaryState.Ready ∨ ps = PrimaryState.Set ∨ ps = PrimaryState.Playing)) →
      activeSinceTransition asv ps now = some now)
    ∧ ((asv = none
        ∧ ¬(ps = PrimaryState.Ready ∨ ps = PrimaryState.Set ∨ ps = PrimaryState.Playing)) →
      activeSinceTransition asv ps now = none)
    ∧ (∀ t, asv = some t →
        (ps = PrimaryState.Ready ∨ ps = PrimaryState.Set ∨ ps = PrimaryState.Playing) →
      activeSinceTransition asv ps now = some t)
    ∧ (∀ t, asv = some t →
        ¬(ps = PrimaryState.Ready ∨ ps = PrimaryState.Set ∨ ps = PrimaryState.Playing) →
      activeSinceTransition asv ps now = none) := by
  cases asv <;> cases ps <;> simp [activeSinceTransition]

/-- A context with an injected motion command whose primary state is Set
at time 7. -/
def ctxInjectedSet : CycleContext :=
  { ctxBase with
      world_state :=
        { wsBase with robot := { primary_state := PrimaryState.Set, role := Role.Searcher } }
      cycle_time := { start_time := 7 }
      parameters := { injected_motion_command := some (MotionCommand.Command 6),
                      maximum_lookaround_duration := 0 } }

/-- Claim C4 counterexample: in a cycle with an injected motion command,
starting from `active_since = None` with `primary_state = Set` at time 7,
the table cell `(None, Set) ↦ Some(now)` is not applied — the injected
escape hatch returns before the update, so `active_since` stays `None`. -/
theorem active_since_table_fails_on_injected_cycle :
    Behavior.new.active_since = none
    ∧ ctxInjectedSet.world_state.robot.primary_state = PrimaryState.Set
    ∧ ctxInjectedSet.parameters.injected_motion_command ≠ none
    ∧ ctxInjectedSet.cycle_time.start_time = 7
    ∧ (Behavior.cycle envNone Behavior.new ctxInjectedSet).1.active_since ≠ some 7 := by
  refine ⟨rfl, rfl, ?_, rfl, ?_⟩ <;> decide

/-- Claim C4 (amended: restricted to cycles without an injected motion
command): before the candidate list is built, `active_since` is updated
from `(active_since, primary_state)` exactly per the 4-cell table —
`(None, Ready|Set|Playing)` becomes `Some(now)`, `(None, _)` stays `None`,
`(Some t, Ready|Set|Playing)` stays `Some t`, `(Some t, _)` becomes
`None` — and the cycle commits that value. -/
theorem active_since_transition_table (env : Env) (b : Behavior) (ctx : CycleContext)
    (h : ctx.parameters.injected_motion_command = none) :
    ((b.active_since = none
        ∧ (ctx.world_state.robot.primary_state = PrimaryState.Ready
            ∨ ctx.world_state.robot.primary_state = PrimaryState.Set
            ∨ ctx.world_state.robot.primary_state = PrimaryState.Playing)) →
      (Behavior.cycle env b ctx).1.active_since = some ctx.cycle_time.start_time)
    ∧ ((b.active_since = none
        ∧ ¬(ctx.world_state.robot.primary_state = PrimaryState.Ready
            ∨ ctx.world_state.robot.primary_state = PrimaryState.Set
            ∨ ctx.world_state.robot.primary_state = PrimaryState.Playing)) →
      (Behavior.cycle env b ctx).1.active_since = none)
    ∧ (∀ t, b.active_since = some t →
        (ctx.world_state.robot.primary_state = PrimaryState.Ready
            ∨ ctx.world_state.robot.primary_state = PrimaryState.Set
            ∨ ctx.world_state.robot.primary_state = PrimaryState.Playing) →
      (Behavior.cycle env b ctx).1.active_since = some t)
    ∧ (∀ t, b.active_since = some t →
        ¬(ctx.world_state.robot.primary_state = PrimaryState.Ready
            ∨ ctx.world_state.robot.primary_state = PrimaryState.Set
            ∨ ctx.world_state.robot.primary_state = PrimaryState.Playing) →
      (Behavior.cycle env b ctx).1.active_since = none) := by
  have hs := (cycle_fst_fields env b ctx h).1
  rw [hs, preArbitration_active_since]
  exact activeSinceTransition_table b.active_since ctx.world_state.robot.primary_state
    ctx.cycle_time.start_time

/-- A non-injected context whose primary state is Set at time 7. -/
def ctxSet : CycleContext :=
  { ctxBase with
      world_state :=
        { wsBase with robot := { primary_state := PrimaryState.Set, role := Role.Searcher } }
      cycle_time := { start_time := 7 } }

/-- Witness for C4 (amended): a non-injected cycle in primary state Set at
time 7 arms `active_since` to `some 7`. -/
theorem active_since_transition_table_witness :
    (Behavior.cycle envNone Behavior.new ctxSet).1.active_since = some 7 :=
  (active_since_transition_table envNone Behavior.new ctxSet rfl).1
    ⟨rfl, Or.inr (Or.inl rfl)⟩

/-! Claim C5: the `previous_role` debounce. -/

/-- A context with an injected motion command whose role is Striker. -/
def ctxInjectedStriker : CycleContext :=
  { ctxBase with
      world_state :=
        { wsBase with robot := { primary_state := PrimaryState.Initial, role := Role.Striker } }
      parameters := { injected_motion_command := some (MotionCommand.Command 7),
                      maximum_lookaround_duration := 0 } }

/-- Claim C5 counterexample: in a cycle with an injected motion command the
cycle's role (Striker) differs from the stored previous_role (Searcher),
is neither Searcher nor Loser, and the stored value is not Keeper — all
three update conditions hold — yet previous_role is not updated, because
the injected escape hatch returns first. -/
theorem previous_role_not_updated_in_injected_cycle :
    Behavior.new.previous_role = Role.Searcher
    ∧ ctxInjectedStriker.world_state.robot.role = Role.Striker
    ∧ ctxInjectedStriker.parameters.injected_motion_command ≠ none
    ∧ (Behavior.cycle envNone Behavior.new ctxInjectedStriker).1.previous_role
        ≠ Role.Striker := by
  refine ⟨rfl, rfl, ?_, ?_⟩ <;> decide

/-- Claim C5 (amended: restricted to cycles without an injected motion
command): previous_role is set to the cycle's role exactly when the role
differs from the stored value, is neither Searcher nor Loser, and the
stored value is not Keeper; otherwise it is unchanged — in particular a
stored Keeper never changes, and a role of Searcher or Loser never changes
it. -/
theorem previous_role_debounce (env : Env) (b : Behavior) (ctx : CycleContext)
    (h : ctx.parameters.injected_motion_command = none) :
    ((b.previous_role ≠ ctx.world_state.robot.role
        ∧ ctx.world_state.robot.role ≠ Role.Searcher
        ∧ ctx.world_state.robot.role ≠ Role.Loser
        ∧ b.previous_role ≠ Role.Keeper) →
      (Behavior.cycle env b ctx).1.previous_role = ctx.world_state.robot.role)
    ∧ (¬(b.previous_role ≠ ctx.world_state.robot.role
        ∧ ctx.world_state.robot.role ≠ Role.Searcher
        ∧ ctx.world_state.robot.role ≠ Role.Loser
        ∧ b.previous_role ≠ Role.Keeper) →
      (Behavior.cycle env b ctx).1.previous_role = b.previous_role)
    ∧ (b.previous_role = Role.Keeper →
      (Behavior.cycle env b ctx).1.previous_role = Role.Keeper)
    ∧ ((ctx.world_state.robot.role = Role.Searcher
        ∨ ctx.world_state.robot.role = Role.Loser) →
      (Behavior.cycle env b ctx).1.previous_role = b.previous_role) := by
  have hs := (cycle_fst_fields env b ctx h).2.1
  rw [hs, preArbitration_previous_role]
  unfold previousRoleTransition
  refine ⟨?_, ?_, ?_, ?_⟩
  · intro hc
    rw [if_pos hc]
  · intro hc
    rw [if_neg hc]
  · intro hk
    rw [if_neg, hk]
    rintro ⟨_, _, _, hne⟩
    exact hne hk
  · intro hrole
    rw [if_neg]
    rintro ⟨_, hs2, hl2, _⟩
    rcases hrole with h1 | h1
    · exact hs2 h1
    · exact hl2 h1

/-- A non-injected context whose role is Striker. -/
def ctxStriker : CycleContext :=
  { ctxBase with
      world_state :=
        { wsBase with robot := { primary_state := PrimaryState.Initial, role := Role.Striker } } }

/-- Witness for C5 (amended): a non-injected cycle with role Striker
(previous_role Searcher) adopts Striker as the new previous_role. -/
theorem previous_role_debounce_witness :
    (Behavior.cycle envNone Behavior.new ctxStriker).1.previous_role = Role.Striker :=
  (previous_role_debounce envNone Behavior.new ctxStriker rfl).1
    ⟨by decide, by decide, by decide, by decide⟩

/-! Claim C10: ball memory. -/

/-- A context with an injected motion command and a ball observation at
(3, 4). -/
def ctxInjectedBall : CycleContext :=
  { ctxBase with
      world_state :=
        { wsBase with ball := some { ball_in_field := { x := 3, y := 4 } } }
      parameters := { injected_motion_command := some (MotionCommand.Command 8),
                      maximum_lookaround_duration := 0 } }

/-- Claim C10 counterexample: a cycle with an injected motion command and a
ball observation at (3, 4) leaves last_known_ball_position at its old
value (0, 0) instead of setting it to the observed position. -/
theorem ball_memory_fails_on_injected_cycle :
    ctxInjectedBall.world_state.ball = some { ball_in_field := { x := 3, y := 4 } }
    ∧ ctxInjectedBall.parameters.injected_motion_command ≠ none
    ∧ (Behavior.cycle envNone Behavior.new ctxInjectedBall).1.last_known_ball_position
        ≠ ({ x := 3, y := 4 } : Point2) := by
  refine ⟨rfl, ?_, ?_⟩ <;> decide

/-- Claim C10 (amended: restricted to cycles without an injected motion
command): last_known_ball_position is set to the observed ball-in-field
position whenever the world state carries a ball observation and is
exactly unchanged otherwise, independent of the environment and hence of
which action is later chosen. -/
theorem ball_memory_update (env : Env) (b : Behavior) (ctx : CycleContext)
    (h : ctx.parameters.injected_motion_command = none) :
    (∀ ball_state, ctx.world_state.ball = some ball_state →
      (Behavior.cycle env b ctx).1.last_known_ball_position = ball_state.ball_in_field)
    ∧ (ctx.world_state.ball = none →
      (Behavior.cycle env b ctx).1.last_known_ball_position = b.last_known_ball_position) := by
  have hs := (cycle_fst_fields env b ctx h).2.2
  rw [hs]
  constructor
  · intro ball_state hb
    simp [preArbitration, hb]
  · intro hb
    simp [preArbitration, hb]

/-- A non-injected context with a ball observation at (3, 4). -/
def ctxBall : CycleContext :=
  { ctxBase with
      world_state :=
        { wsBase with ball := some { ball_in_field := { x := 3, y := 4 } } } }

/-- Witness for C10 (amended): a non-injected cycle observing the ball at
(3, 4) stores that position. -/
theorem ball_memory_update_witness :
    (Behavior.cycle envNone Behavior.new ctxBall).1.last_known_ball_position
      = ({ x := 3, y := 4 } : Point2) :=
  (ball_memory_update envNone Behavior.new ctxBall rfl).1
    { ball_in_field := { x := 3, y := 4 } } rfl

/-! Claims C6 and C7: the role-driven decision tables. -/

/-- Whether a filtered game state is `Playing` with a free ball. -/
def FilteredGameState.isPlayingBallFree : FilteredGameState → Bool
  | FilteredGameState.Playing ball_is_free => ball_is_free
  | _ => false

/-- The kicking team carried by a `Ready` filtered game state, if any. -/
def FilteredGameState.readyKickingTeam : FilteredGameState → Option Team
  | FilteredGameState.Ready kicking_team => some kicking_team
  | _ => none

/-- Whether a filtered game state is `Playing`, with any ball flag. -/
def FilteredGameState.isPlayingState : FilteredGameState → Bool
  | FilteredGameState.Playing _ => true
  | _ => false

/-- Whether a filtered game state is `Ready`, with any kicking team. -/
def FilteredGameState.isReadyState : FilteredGameState → Bool
  | FilteredGameState.Ready _ => true
  | _ => false

/-- The Striker decision table exactly as claim C6 states it, with its row
precedence: an unknown filtered game state or Playing with a free ball
yields Dribble; Ready with the own team (the team carried by the Ready
state) kicking yields WalkToPenaltyKick on a PenaltyKick sub-state and
WalkToKickOff otherwise; a remaining Ready state with a PenaltyKick
sub-state and the opponent as (controller-state) kicking team yields
DefendPenaltyKick; every other combination yields DefendKickOff. -/
def strikerActionSpec (fgcs : Option FilteredGameControllerState) : Action :=
  match fgcs with
  | none => Action.Dribble
  | some s =>
      if s.game_state.isPlayingBallFree then Action.Dribble
      else if s.game_state.readyKickingTeam = some Team.Hulks then
        if s.sub_state = some SubState.PenaltyKick then Action.WalkToPenaltyKick
        else Action.WalkToKickOff
      else if s.game_state.isReadyState ∧ s.sub_state = some SubState.PenaltyKick
          ∧ s.kicking_team = Team.Opponent then
        Action.DefendPenaltyKick
      else Action.DefendKickOff

/-- Claim C6: for every world state with role Striker, the single
role-driven action appended to the candidate list follows the claimed
decision table (`strikerActionSpec`). -/
theorem striker_role_actions_follow_table :
    ∀ fgcs : Option FilteredGameControllerState,
      roleActions Role.Striker fgcs = [strikerActionSpec fgcs] := by
  decide

/-- The Keeper decision table exactly as claim C7 states it: in a
penalty-shootout game phase, or when the filtered game state is Playing
with the opponent kicking and a PenaltyKick sub-state, exactly Jump then
PrepareJump, in that order; in every other case exactly DefendGoal. -/
def keeperActionsSpec (fgcs : Option FilteredGameControllerState) : List Action :=
  match fgcs with
  | none => [Action.DefendGoal]
  | some s =>
      if s.game_phase = GamePhase.PenaltyShootout
          ∨ (s.game_state.isPlayingState ∧ s.kicking_team = Team.Opponent
              ∧ s.sub_state = some SubState.PenaltyKick) then
        [Action.Jump, Action.PrepareJump]
      else [Action.DefendGoal]

/-- Claim C7: for every world state with role Keeper, the role-driven
actions appended to the candidate list follow the claimed decision table
(`keeperActionsSpec`). -/
theorem keeper_role_actions_follow_table :
    ∀ fgcs : Option FilteredGameControllerState,
      roleActions Role.Keeper fgcs = keeperActionsSpec fgcs := by
  decide

/-! Claim C8: structure of the candidate list. -/

/-- The look-around condition exactly as claim C8 states it: an armed
`active_since`, unconverged localization, and an elapsed active duration
strictly below the configured maximum. -/
def lookAroundWanted (active_since : Option Nat) (now : Nat)
    (is_localization_converged : Bool) (maximum_lookaround_duration : Nat) : Bool :=
  match active_since with
  | some t => !is_localization_converged && decide (now - t < maximum_lookaround_duration)
  | none => false

/-- Unfolding of the look-around condition. -/
theorem lookAroundWanted_iff (asv : Option Nat) (now : Nat) (conv : Bool) (maxd : Nat) :
    lookAroundWanted asv now conv maxd = true ↔
      ∃ t, asv = some t ∧ conv = false ∧ now - t < maxd := by
  cases asv with
  | none => simp [lookAroundWanted]
  | some t => cases conv <;> simp [lookAroundWanted]

/-- The role-driven branch never contributes LookAround. -/
theorem lookAround_not_in_roleActions :
    ∀ (role : Role) (fgcs : Option FilteredGameControllerState),
      Action.LookAround ∉ roleActions role fgcs := by
  decide

/-- Claim C8: every successfully built candidate list starts with the
fixed prefixed actions Unstiff, Animation, SitDown, Penalize, Initial,
FallSafely, StandUp, NoGroundContact, Stand, InterceptBall, Calibrate in
exactly that order; LookAround sits immediately after them and before the
role-driven actions exactly when `active_since` is armed, localization has
not converged, and the elapsed duration is strictly below the configured
maximum; otherwise LookAround is absent from the list. -/
theorem candidate_list_structure (active_since : Option Nat) (now : Nat)
    (is_localization_converged : Bool) (maximum_lookaround_duration : Nat)
    (role : Role) (fgcs : Option FilteredGameControllerState) (actions : List Action)
    (h : buildActions active_since now is_localization_converged
        maximum_lookaround_duration role fgcs = Except.ok actions) :
    actions =
      [Action.Unstiff, Action.Animation, Action.SitDown, Action.Penalize, Action.Initial,
       Action.FallSafely, Action.StandUp, Action.NoGroundContact, Action.Stand,
       Action.InterceptBall, Action.Calibrate]
        ++ (if lookAroundWanted active_since now is_localization_converged
                maximum_lookaround_duration then [Action.LookAround] else [])
        ++ roleActions role fgcs
    ∧ (Action.LookAround ∈ actions ↔
        ∃ t, active_since = some t ∧ is_localization_converged = false
          ∧ now - t < maximum_lookaround_duration) := by
  have hstruct : actions =
      safetyActions
        ++ (if lookAroundWanted active_since now is_localization_converged
                maximum_lookaround_duration then [Action.LookAround] else [])
        ++ roleActions role fgcs := by
    cases active_since with
    | none =>
        simp only [buildActions, Except.ok.injEq] at h
        rw [← h]
        simp [lookAroundWanted]
    | some t =>
        by_cases hle : t ≤ now
        · have hds : durationSince now t = Except.ok (now - t) := by
            simp [durationSince, hle]
          have hcond : (is_localization_converged = false
              ∧ now - t < maximum_lookaround_duration) ↔
              lookAroundWanted (some t) now is_localization_converged
                maximum_lookaround_duration = true := by
            rw [lookAroundWanted_iff]
            constructor
            · rintro ⟨hc, hd⟩
              exact ⟨t, rfl, hc, hd⟩
            · rintro ⟨t2, ht2, hc, hd⟩
              obtain rfl : t = t2 := Option.some.inj ht2
              exact ⟨hc, hd⟩
          simp only [buildActions, hds] at h
          injection h with h
          rw [← h, if_congr hcond rfl rfl]
        · exfalso
          have hds : durationSince now t = Except.error (t - now) := by
            simp [durationSince, hle]
          simp only [buildActions, hds] at h
          exact Except.noConfusion h
  refine ⟨hstruct, ?_⟩
  rw [hstruct]
  by_cases hw : lookAroundWanted active_since now is_localization_converged
      maximum_lookaround_duration = true
  · rw [if_pos hw]
    constructor
    · intro _
      exact (lookAroundWanted_iff active_since now is_localization_converged
        maximum_lookaround_duration).mp hw
    · intro _
      simp [safetyActions]
  · rw [if_neg hw]
    constructor
    · intro hmem
      exfalso
      rcases List.mem_append.mp hmem with hm | hm
      · rcases List.mem_append.mp hm with hm2 | hm2
        · revert hm2
          simp [safetyActions]
        · simp at hm2
      · exact lookAround_not_in_roleActions role fgcs hm
    · rintro ⟨t, ht, hconv, hd⟩
      exact absurd ((lookAroundWanted_iff active_since now is_localization_converged
        maximum_lookaround_duration).mpr ⟨t, ht, hconv, hd⟩) hw

/-- Witness for C8: with `active_since` armed at 2, cycle time 5,
unconverged localization and maximum 10, the Striker list is the fixed
prefixed actions, then LookAround, then Dribble. -/
theorem candidate_list_structure_witness :
    (safetyActions ++ [Action.LookAround] ++ [Action.Dribble] : List Action) =
      [Action.Unstiff, Action.Animation, Action.SitDown, Action.Penalize, Action.Initial,
       Action.FallSafely, Action.StandUp, Action.NoGroundContact, Action.Stand,
       Action.InterceptBall, Action.Calibrate]
        ++ (if lookAroundWanted (some 2) 5 false 10 then [Action.LookAround] else [])
        ++ roleActions Role.Striker none
    ∧ (Action.LookAround ∈ (safetyActions ++ [Action.LookAround] ++ [Action.Dribble] : List Action) ↔
        ∃ t, (some 2 : Option Nat) = some t ∧ false = false ∧ 5 - t < 10) :=
  candidate_list_structure (some 2) 5 false 10 Role.Striker none
    (safetyActions ++ [Action.LookAround] ++ [Action.Dribble]) rfl

/-! Claim C9: monotonic-clock violation. -/

/-- Claim C9: in a cycle without an injected motion command whose armed
`active_since` records a time strictly later than the cycle start time,
the cycle ends in the fatal, intentionally non-recoverable error class —
the propagated monotonic-clock violation with its diagnostic — no normal
output is produced and no motion command is committed. -/
theorem clock_violation_is_fatal (env : Env) (b : Behavior) (ctx : CycleContext) (t : Nat)
    (hinj : ctx.parameters.injected_motion_command = none)
    (hasv : (preArbitration b ctx).active_since = some t)
    (hlt : ctx.cycle_time.start_time < t) :
    (Behavior.cycle env b ctx).2 = CycleResult.fatalError (t - ctx.cycle_time.start_time)
    ∧ (∀ outputs, (Behavior.cycle env b ctx).2 ≠ CycleResult.ok outputs)
    ∧ (Behavior.cycle env b ctx).1.last_motion_command = b.last_motion_command := by
  have hbuild : buildActions (preArbitration b ctx).active_since ctx.cycle_time.start_time
      ctx.is_localization_converged ctx.parameters.maximum_lookaround_duration
      ctx.world_state.robot.role ctx.world_state.filtered_game_controller_state
      = Except.error (t - ctx.cycle_time.start_time) := by
    rw [hasv]
    simp [buildActions, durationSince, Nat.not_le.mpr hlt]
  unfold Behavior.cycle
  rw [hinj]
  dsimp only
  rw [hbuild]
  exact ⟨rfl, fun outputs hne => CycleResult.noConfusion hne,
    preArbitration_last_motion_command b ctx⟩

/-- A non-injected context in primary state Set whose cycle starts at
time 3. -/
def ctxClockBack : CycleContext :=
  { ctxBase with
      world_state :=
        { wsBase with robot := { primary_state := PrimaryState.Set, role := Role.Searcher } }
      cycle_time := { start_time := 3 } }

/-- A persistent state whose activation timestamp is armed at time 5. -/
def behaviorArmed : Behavior :=
  { Behavior.new with active_since := some 5 }

/-- Witness for C9: with `active_since` armed at 5 and the cycle starting
at 3, the cycle fails with the clock-violation error and commits no
command. -/
theorem clock_violation_is_fatal_witness :
    (Behavior.cycle envNone behaviorArmed ctxClockBack).2 = CycleResult.fatalError 2
    ∧ (∀ outputs,
        (Behavior.cycle envNone behaviorArmed ctxClockBack).2 ≠ CycleResult.ok outputs)
    ∧ (Behavior.cycle envNone behaviorArmed ctxClockBack).1.last_motion_command
        = behaviorArmed.last_motion_command := by
  have h := clock_violation_is_fatal envNone behaviorArmed ctxClockBack 5 rfl (by decide)
    (by decide)
  exact ⟨h.1, h.2.1, h.2.2⟩

/-! Claim C1: first-success arbitration. -/

/-- `find_map` on a list splitting as a none-returning prefix, a first
succeeding action and a remainder returns that first success having
invoked exactly the prefix and the winner — nothing after it. -/
theorem arbitrateAux_first_success (exec : Action → Option MotionCommand)
    (l1 : List Action) (a : Action) (c : MotionCommand) (l2 : List Action)
    (h1 : ∀ x ∈ l1, exec x = none) (h2 : exec a = some c) :
    arbitrateAux exec (l1 ++ a :: l2) = (some (a, c), l1 ++ [a]) := by
  induction l1 with
  | nil => simp [arbitrateAux, h2]
  | cons x xs ih =>
      have hx : exec x = none := h1 x (List.mem_cons_self x xs)
      have ih2 := ih fun y hy => h1 y (List.mem_cons_of_mem x hy)
      simp [arbitrateAux, hx, ih2]

/-- `find_map` over a list of declining executors finds nothing. -/
theorem arbitrateAux_all_none (exec : Action → Option MotionCommand)
    (l : List Action) (h : ∀ x ∈ l, exec x = none) :
    (arbitrateAux exec l).1 = none := by
  induction l with
  | nil => rfl
  | cons x xs ih =>
      have hx : exec x = none := h x (List.mem_cons_self x xs)
      have ih2 := ih fun y hy => h y (List.mem_cons_of_mem x hy)
      simp [arbitrateAux, hx, ih2]

/-- Claim C1: in a cycle without an injected motion command whose
candidate list builds successfully, if the list splits as `l1 ++ a :: l2`
with every executor of `l1` declining and the executor of `a` returning
command `c`, then the cycle returns normally, commits exactly `c` (as the
emitted and the remembered command) with `a` — a member of that cycle's
list — as the committed action, and the arbitration loop invoked exactly
the executors of `l1 ++ [a]`, never one past the first success; if instead
every executor of the list declines, the cycle panics with the diagnostic
carrying the world state, returning neither a command nor a recoverable
error. -/
theorem cycle_commits_first_applicable (env : Env) (b : Behavior) (ctx : CycleContext)
    (hinj : ctx.parameters.injected_motion_command = none)
    (actions : List Action)
    (hb : buildActions (preArbitration b ctx).active_since ctx.cycle_time.start_time
        ctx.is_localization_converged ctx.parameters.maximum_lookaround_duration
        ctx.world_state.robot.role ctx.world_state.filtered_game_controller_state
        = Except.ok actions) :
    (∀ l1 a c l2,
      actions = l1 ++ a :: l2 →
      (∀ x ∈ l1, execFor env ctx (preArbitration b ctx)
          (env.dribble_path_plan ctx.world_state
            (preArbitration b ctx).last_motion_command) x = none) →
      execFor env ctx (preArbitration b ctx)
          (env.dribble_path_plan ctx.world_state
            (preArbitration b ctx).last_motion_command) a = some c →
      ((Behavior.cycle env b ctx).1.last_motion_command = c
        ∧ (∃ outputs, (Behavior.cycle env b ctx).2 = CycleResult.ok outputs
            ∧ outputs.motion_command = c
            ∧ (ctx.active_action_subscribed = true →
                outputs.active_action_output = some a))
        ∧ a ∈ actions
        ∧ (arbitrateAux (execFor env ctx (preArbitration b ctx)
              (env.dribble_path_plan ctx.world_state
                (preArbitration b ctx).last_motion_command)) actions).2 = l1 ++ [a]))
    ∧ ((∀ x ∈ actions, execFor env ctx (preArbitration b ctx)
          (env.dribble_path_plan ctx.world_state
            (preArbitration b ctx).last_motion_command) x = none) →
      (Behavior.cycle env b ctx).2 = CycleResult.panicked panicMessage ctx.world_state) := by
  unfold Behavior.cycle
  rw [hinj]
  dsimp only
  rw [hb]
  dsimp only
  constructor
  · intro l1 a c l2 hsplit hnone hsucc
    have harb := arbitrateAux_first_success
      (execFor env ctx (preArbitration b ctx)
        (env.dribble_path_plan ctx.world_state (preArbitration b ctx).last_motion_command))
      l1 a c l2 hnone hsucc
    rw [hsplit, harb]
    dsimp only
    refine ⟨rfl, ⟨_, rfl, rfl, ?_⟩, ?_, rfl⟩
    · intro hsub
      rw [if_pos hsub]
    · simp
  · intro hnone
    have harb := arbitrateAux_all_none
      (execFor env ctx (preArbitration b ctx)
        (env.dribble_path_plan ctx.world_state (preArbitration b ctx).last_motion_command))
      actions hnone
    rw [harb]

/-- Witness for C1: with only the Unstiff executor succeeding, a concrete
cycle commits Command 1 and the arbitration loop invokes only Unstiff. -/
theorem cycle_commits_first_applicable_witness :
    (Behavior.cycle envUnstiff Behavior.new ctxBase).1.last_motion_command
        = MotionCommand.Command 1
    ∧ (arbitrateAux (execFor envUnstiff ctxBase (preArbitration Behavior.new ctxBase)
          (envUnstiff.dribble_path_plan ctxBase.world_state
            (preArbitration Behavior.new ctxBase).last_motion_command))
        (safetyActions ++ roleActions Role.Searcher none)).2 = [] ++ [Action.Unstiff] := by
  have h := (cycle_commits_first_applicable envUnstiff Behavior.new ctxBase rfl
      (safetyActions ++ roleActions Role.Searcher none) rfl).1
      [] Action.Unstiff (MotionCommand.Command 1)
      [Action.Animation, Action.SitDown, Action.Penalize, Action.Initial, Action.FallSafely,
       Action.StandUp, Action.NoGroundContact, Action.Stand, Action.InterceptBall,
       Action.Calibrate, Action.Search]
      rfl (by simp) rfl
  exact ⟨h.1, h.2.2.2⟩

end Hulk
